import Mathlib

/-!
# SignalCheck — shallow embedding and verification

A shallow embedding of the SignalCheck multi-signal credibility pipeline
(`src/server/services/mlClient.js`, `src/server/services/newsApi.js`,
`src/server/services/aggregator.js` and the five analyzers), together with
theorems settling the specification claims.

Conventions of the embedding:
* JS numbers carrying scores are modelled as `ℤ`; intermediate fractional
  quantities (probabilities, densities, averages) as `ℚ`.
* `Math.round` is `jsRound` (floor of `x + 1/2`, JS rounds half up).
* JS string truthiness (`if (s)`) is modelled as `s ≠ ""`.
* Results of remote calls (HuggingFace inference, NewsAPI) are passed to the
  analyzers as explicit `Option` arguments, mirroring the null-as-fallback
  design of the source.
-/

namespace SignalCheck

/-- JS `Math.round` on the rationals produced by the scoring arithmetic:
rounds half toward positive infinity. -/
def jsRound (q : ℚ) : ℤ := ⌊q + 1/2⌋

/-- The clamp `Math.max(5, Math.min(95, x))` shared by four analyzers. -/
def jsClamp (x : ℤ) : ℤ := max 5 (min 95 x)

/-- A character matched by the JS regex class `\w` (`[A-Za-z0-9_]`). -/
def isWordChar (c : Char) : Bool :=
  (('a' ≤ c && c ≤ 'z') || ('A' ≤ c && c ≤ 'Z') || ('0' ≤ c && c ≤ '9') || c == '_')

/-- JS `s.split(ch)` on a single delimiter predicate: splits at every
delimiter character, keeping empty pieces (so `"a..b"` gives
`["a", "", "b"]` and `""` gives `[""]`). -/
def splitPred : List Char → (Char → Bool) → List (List Char)
  | [], _ => [[]]
  | c :: t, p =>
    if p c then [] :: splitPred t p
    else
      match splitPred t p with
      | [] => [[c]]
      | r :: rs => (c :: r) :: rs

/-- JS `String.prototype.trim` on characters. -/
def trimL (cs : List Char) : List Char :=
  ((cs.dropWhile Char.isWhitespace).reverse.dropWhile Char.isWhitespace).reverse

/-- JS `text.split(/\s+/)`: splits on maximal whitespace runs, keeping one
empty piece at the front (resp. back) when the text starts (resp. ends)
with whitespace, and yielding `[""]` on the empty string. -/
def jsSplitWsL (cs : List Char) : List (List Char) :=
  match cs with
  | [] => [[]]
  | c :: t =>
    let core := (splitPred (c :: t) Char.isWhitespace).filter (fun p => p ≠ [])
    let lead := if c.isWhitespace then [[]] else []
    let trail := if ((c :: t).getLastD c).isWhitespace then [[]] else []
    lead ++ core ++ trail

/-- JS `text.split(/\s+/).length`, the word count used by the length guards. -/
def jsWordCount (s : String) : Nat := (jsSplitWsL s.toList).length

/-- JS `text.split(/[.!?]+/).filter(s => s.trim().length > minLen)`.
Splitting at single delimiter characters instead of delimiter runs only adds
empty pieces, which the `trim().length > minLen` filter removes, so the two
agree. -/
def jsSentencesL (text : List Char) (minLen : Nat) : List (List Char) :=
  (splitPred text (fun c => c == '.' || c == '!' || c == '?')).filter
    (fun s => minLen < (trimL s).length)

/-- Sentence list of a string body. -/
def jsSentences (s : String) (minLen : Nat) : List (List Char) :=
  jsSentencesL s.toList minLen

/-- JS `String.prototype.toLowerCase` (ASCII case mapping). -/
def toLowerL (cs : List Char) : List Char := cs.map Char.toLower

/-- JS `String.prototype.toUpperCase` (ASCII case mapping). -/
def toUpperL (cs : List Char) : List Char := cs.map Char.toUpper

/-- Worker for `countOccsL`, walking the haystack one character at a time
(structural recursion). `skip > 0` means the scanner is inside an already
counted match and must advance without testing; after a hit at a position
the remaining `pat.length - 1` characters of the match are skipped, which is
exactly the `pos += pat.length` jump of the JS loop. -/
def countOccsA : List Char → List Char → Nat → Nat
  | [], _, _ => 0
  | _ :: t, pat, k + 1 => countOccsA t pat k
  | c :: t, pat, 0 =>
    if pat ≠ [] ∧ pat.isPrefixOf (c :: t) then 1 + countOccsA t pat (pat.length - 1)
    else countOccsA t pat 0

/-- Number of matches of the JS loop
`while ((pos = hay.indexOf(pat, pos)) !== -1) { count++; pos += pat.length }`:
non-overlapping occurrences of `pat` in `hay`, scanned left to right.
Returns 0 for an empty pattern (no analyzer pattern is empty). -/
def countOccsL (hay pat : List Char) : Nat := countOccsA hay pat 0

/-- String wrapper for `countOccsL`. -/
def countOccs (hay pat : String) : Nat := countOccsL hay.toList pat.toList

/-- Worker for `countBoundedL`: like `countOccsA` but a hit additionally
requires word boundaries on both sides. `prev` is the character just before
the current scan position (`none` at the start of the haystack); it is
maintained through skipped characters too, so after a counted match the
scanner resumes past the match with the correct preceding character, as the
JS `lastIndex` does. -/
def countBoundedA (prev : Option Char) : List Char → List Char → Nat → Nat
  | [], _, _ => 0
  | c :: t, pat, k + 1 => countBoundedA (some c) t pat k
  | c :: t, pat, 0 =>
    if !pat.isEmpty && pat.isPrefixOf (c :: t)
        && (match prev with | none => true | some q => !isWordChar q)
        && (match (c :: t).drop pat.length with
            | [] => true
            | d :: _ => !isWordChar d) then
      1 + countBoundedA (some c) t pat (pat.length - 1)
    else countBoundedA (some c) t pat 0

/-- Number of matches of the JS global regex `\b pat \b` (for a literal `pat`
that starts and ends with word characters): non-overlapping occurrences of
`pat` in `hay` whose neighbouring characters, when present, are not word
characters. -/
def countBoundedL (prev : Option Char) (hay pat : List Char) : Nat :=
  countBoundedA prev hay pat 0

/-- String wrapper for `countBoundedL`. -/
def countBounded (hay pat : String) : Nat := countBoundedL none hay.toList pat.toList

/-- JS `hay.includes(pat)` on character lists: `pat` occurs contiguously in
`hay`. -/
def jsIncludesL (hay pat : List Char) : Bool :=
  match hay with
  | [] => pat.isEmpty
  | c :: t => pat.isPrefixOf (c :: t) || jsIncludesL t pat

/-- JS `hay.includes(pat)`. -/
def jsIncludes (hay pat : String) : Bool := jsIncludesL hay.toList pat.toList

/-- Maximal runs of word characters in a character list (used to model
`\b…\b` word extraction on whole tokens). -/
def wordRunsAux : List Char → List Char → List (List Char)
  | [], acc => if acc.isEmpty then [] else [acc.reverse]
  | c :: t, acc =>
    if isWordChar c then wordRunsAux t (c :: acc)
    else if acc.isEmpty then wordRunsAux t [] else acc.reverse :: wordRunsAux t []

/-- Maximal runs of word characters. -/
def wordRuns (cs : List Char) : List (List Char) := wordRunsAux cs []

/-- JS `lower.match(/\b[a-z]+\b/g)`: the maximal word-character runs that
consist solely of `a`–`z`. (A run containing a digit or underscore has no
interior word boundary, so it contributes no match.) -/
def lowerAlphaWords (cs : List Char) : List (List Char) :=
  (wordRuns cs).filter (fun r => r.all (fun c => 'a' ≤ c && c ≤ 'z'))

/-- JS `text.match(/\b[A-Z]{3,}\b/g)`: maximal word-character runs that are
entirely `A`–`Z` and have length at least 3. -/
def allCapsWords (cs : List Char) : List (List Char) :=
  (wordRuns cs).filter (fun r => r.all (fun c => 'A' ≤ c && c ≤ 'Z') && 3 ≤ r.length)

-- ───────────────────────────────────────────────────────────────────────────
-- Data model
-- ───────────────────────────────────────────────────────────────────────────

/-- The three signal levels (JS strings `'low' | 'medium' | 'high'`). -/
inductive Level
  | low
  | medium
  | high
deriving DecidableEq, Repr

/-- The slice of a `SignalResult` consumed by the aggregator. -/
structure SignalResult where
  level : Level
  score : ℤ
  explanation : String
deriving DecidableEq, Repr

/-- The normalized `Content` record produced by the acquisition layer.
Absent optional fields are the empty string (JS falsy). -/
structure Content where
  title : String
  body : String
  meta : String
  author : String
  date : String
  source : String
deriving DecidableEq, Repr

/-- The five analyzer outputs keyed by their fixed names, as destructured at
the top of `aggregate`. -/
structure Signals where
  syntheticText : SignalResult
  sourcing : SignalResult
  linguistic : SignalResult
  temporal : SignalResult
  structural : SignalResult
deriving DecidableEq, Repr

/-- `AggregationResult`. -/
structure AggregationResult where
  confidenceBand : Level
  summary : String
  uncertaintyStatement : String
  suggestions : List String
  disagreements : List String
deriving DecidableEq, Repr

-- ───────────────────────────────────────────────────────────────────────────
-- Aggregator (src/server/services/aggregator.js)
-- ───────────────────────────────────────────────────────────────────────────

/-- The confidence band computation of `aggregate`. -/
def confidenceBandOf (levels : List Level) (scores : List ℤ) : Level :=
  let highCount := (levels.filter (fun l => l == Level.high)).length
  let mediumCount := (levels.filter (fun l => l == Level.medium)).length
  let avgScore : ℚ := (scores.sum : ℚ) / (scores.length : ℚ)
  if 3 ≤ highCount ∨ 65 ≤ avgScore then Level.high
  else if 1 ≤ highCount ∨ 3 ≤ mediumCount ∨ 35 ≤ avgScore then Level.medium
  else Level.low

/-- The display names zipped against the signal levels when reporting
disagreements. -/
def signalNames : List String :=
  ["Synthetic Text", "Sourcing", "Linguistic Risk", "Temporal", "Structural"]

/-- The disagreement computation of `aggregate`: one combined sentence when
both a high and a low level are present, nothing otherwise. -/
def mkDisagreements (levels : List Level) : List String :=
  if Level.high ∈ levels ∧ Level.low ∈ levels then
    let highSignals := ((levels.zip signalNames).filter (fun p => p.1 == Level.high)).map Prod.snd
    let lowSignals := ((levels.zip signalNames).filter (fun p => p.1 == Level.low)).map Prod.snd
    if 0 < highSignals.length ∧ 0 < lowSignals.length then
      [String.intercalate " and " highSignals ++ " signal" ++
        (if 1 < highSignals.length then "s" else "") ++ " high risk, while " ++
        String.intercalate " and " lowSignals ++ " appear" ++
        (if lowSignals.length == 1 then "s" else "") ++
        " normal. This mixed picture means some aspects warrant scrutiny even though others look fine."]
    else []
  else []

/-- The band-specific summary templates of `aggregate`. -/
def mkSummary (band : Level) (signals : Signals) (allSignals : List SignalResult) : String :=
  if band = Level.low then
    "This content\x27s signal profile appears mostly normal across the dimensions we analyze. Sourcing, language patterns, structural framing, and other indicators don\x27t raise significant flags. This doesn\x27t mean the content is true — only that its surface characteristics are consistent with standard reporting or communication."
  else if band = Level.medium then
    let concerns :=
      (if signals.syntheticText.level ≠ Level.low then ["some patterns resembling generated text"] else []) ++
      (if signals.sourcing.level ≠ Level.low then ["limited source attribution"] else []) ++
      (if signals.linguistic.level ≠ Level.low then ["elevated emotional or certainty language"] else []) ++
      (if signals.temporal.level ≠ Level.low then ["weak temporal context or corroboration"] else []) ++
      (if signals.structural.level ≠ Level.low then ["structural framing concerns"] else [])
    "This content shows some signals that suggest caution: " ++
      String.intercalate ", " concerns ++
      ". These patterns don\x27t prove anything is wrong, but they appear in content that sometimes turns out to be misleading, incomplete, or decontextualized. Additional verification would be worthwhile before acting on or sharing this content."
  else
    let topConcerns := ((allSignals.filter (fun s => s.level == Level.high)).map SignalResult.explanation).take 2
    "Multiple credibility signals flag this content for careful evaluation. " ++
      String.intercalate " " topConcerns ++
      " These patterns frequently appear in content that is misleading, manipulative, or synthetic. This does not mean the claims are false — but the way they are presented warrants significant caution."

/-- The constant uncertainty disclaimer. -/
def uncertaintyText : String :=
  "This analysis examines content characteristics and surface-level patterns only. It cannot determine whether claims are true or false, nor can it assess the intent of the author. Signals are probabilistic estimates based on textual heuristics. Content that appears normal by these measures could still be misleading, and content that triggers warnings could be entirely accurate. Always apply your own judgment."

/-- The suggestion list of `aggregate`. -/
def mkSuggestions (signals : Signals) (content : Content) : List String :=
  let suggestions :=
    (if signals.sourcing.level ≠ Level.low then
      ["Look for the same story reported by multiple independent news organizations with their own sourcing"] else []) ++
    (if signals.syntheticText.level ≠ Level.low then
      ["Check whether a named human author is associated with this content and has a verifiable track record"] else []) ++
    (if signals.linguistic.level ≠ Level.low then
      ["Compare this content to coverage of the same topic that uses more measured language"] else []) ++
    (if signals.temporal.level ≠ Level.low then
      ["Wait for the story to develop — initial reports are often incomplete or inaccurate"] else []) ++
    (if signals.structural.level ≠ Level.low then
      ["Read beyond the headline — check if the body actually supports the framing"] else []) ++
    (if content.source = "" ∨ content.source = "manual-paste" then
      ["Try to identify the original source of this content for better context"] else [])
  if suggestions.length == 0 then
    ["Cross-reference claims with other reputable sources before sharing",
     "Consider the broader context and whether this content is complete"]
  else suggestions

/-- `aggregate(signals, content)` from the aggregation layer. -/
def aggregate (signals : Signals) (content : Content) : AggregationResult :=
  let allSignals := [signals.syntheticText, signals.sourcing, signals.linguistic,
    signals.temporal, signals.structural]
  let scores := allSignals.map SignalResult.score
  let levels := allSignals.map SignalResult.level
  let confidenceBand := confidenceBandOf levels scores
  { confidenceBand := confidenceBand
    summary := mkSummary confidenceBand signals allSignals
    uncertaintyStatement := uncertaintyText
    suggestions := mkSuggestions signals content
    disagreements := mkDisagreements levels }


-- ───────────────────────────────────────────────────────────────────────────
-- Inference client (src/server/services/mlClient.js, hfInference)
-- ───────────────────────────────────────────────────────────────────────────

/-- One observable outcome of a `fetch` attempt against the inference
endpoint: a network error / timeout (rejected promise), or a response with
an HTTP status and a parsed JSON body (`none` when `res.json()` throws,
i.e. the body is malformed). -/
inductive FetchOutcome (α : Type)
  | netErr
  | resp (status : Nat) (body : Option α)
deriving DecidableEq, Repr

/-- JS `res.ok`: status in the range 200–299. -/
def statusOk (s : Nat) : Bool := 200 ≤ s && s ≤ 299

/-- `hfInference(model, inputs, retried)` over the stream of fetch outcomes
the network will produce, paired with the number of fetches performed.
A 503 on a non-retried call waits 10 s (unobservable here) and retries once
with `retried = true`; any other non-ok status, a network error, or a
malformed body yields `none`. An exhausted stream performs no fetch. -/
def hfInference {α : Type} (outcomes : List (FetchOutcome α)) (retried : Bool) :
    Option α × Nat :=
  match outcomes with
  | [] => (none, 0)
  | o :: rest =>
    match o with
    | .netErr => (none, 1)
    | .resp status body =>
      if status = 503 ∧ retried = false then
        let r := hfInference rest true
        (r.1, r.2 + 1)
      else if statusOk status then
        match body with
        | some parsed => (some parsed, 1)
        | none => (none, 1)
      else (none, 1)

-- ───────────────────────────────────────────────────────────────────────────
-- Sentiment wrapper (src/server/services/mlClient.js, analyzeSentiment)
-- ───────────────────────────────────────────────────────────────────────────

/-- JS `String.prototype.replace(pat, "")` with a string pattern: removes the
first occurrence of `pat` only. -/
def removeFirstL (cs pat : List Char) : List Char :=
  match cs, pat with
  | cs, [] => cs
  | [], _ :: _ => []
  | c :: t, p :: ps =>
    if (p :: ps).isPrefixOf (c :: t) then (c :: t).drop (p :: ps).length
    else c :: removeFirstL t (p :: ps)

/-- The key normalization of the `scores` map:
`l.label.toLowerCase().replace('label_', '')` then mapping the numeric class
identifiers `0`, `1`, `2` to `negative`, `neutral`, `positive`. -/
def sentimentKey (label : String) : String :=
  let key := (removeFirstL (toLowerL label.toList) "label_".toList).asString
  if key = "0" then "negative"
  else if key = "1" then "neutral"
  else if key = "2" then "positive"
  else key

/-- The label normalization applied to the top label: the bare identifiers
`0`, `1`, `2` map to the three names, anything else is only lowercased
(note: unlike `sentimentKey`, no `label_` prefix is stripped here). -/
def sentimentTopLabel (label : String) : String :=
  if label = "0" then "negative"
  else if label = "1" then "neutral"
  else if label = "2" then "positive"
  else (toLowerL label.toList).asString

/-- Insert-or-overwrite into the association list modelling the JS `scores`
object (insertion order of first occurrence, value of the last write). -/
def upsert (m : List (String × ℚ)) (k : String) (v : ℚ) : List (String × ℚ) :=
  match m with
  | [] => [(k, v)]
  | (k0, v0) :: rest => if k0 = k then (k0, v) :: rest else (k0, v0) :: upsert rest k v

/-- The output record of `analyzeSentiment`. -/
structure SentimentOut where
  label : String
  score : ℚ
  scores : List (String × ℚ)
deriving DecidableEq, Repr

/-- The core of `analyzeSentiment` on a non-empty parsed label list
`(label, score)` (JS `labels`, after unwrapping `result[0] ?? result`).
The loop builds the normalized `scores` map and tracks the strictly-largest
score starting from the first element. An empty label list is out of scope
(the source would fail on it). -/
def analyzeSentimentCore (l0 : String × ℚ) (rest : List (String × ℚ)) : SentimentOut :=
  let labels := l0 :: rest
  let scores := labels.foldl (fun m l => upsert m (sentimentKey l.1) l.2) []
  let topLabel := labels.foldl (fun t l => if t.2 < l.2 then l else t) l0
  { label := sentimentTopLabel topLabel.1, score := topLabel.2, scores := scores }

-- ───────────────────────────────────────────────────────────────────────────
-- Corroboration client (src/server/services/newsApi.js)
-- ───────────────────────────────────────────────────────────────────────────

/-- One article returned by the news-search boundary. `sourceName` is
`article.source?.name`, with absence modelled as `""` (JS falsy). -/
structure Article where
  title : String
  description : String
  sourceName : String
  url : String
deriving DecidableEq, Repr

/-- The deduplicated lowercased word set (words longer than 3 characters)
used by `textSimilarity`. -/
def simWords (cs : List Char) : List (List Char) :=
  ((jsSplitWsL (toLowerL cs)).filter (fun w => 3 < w.length)).dedup

/-- `textSimilarity(a, b)`: Jaccard word overlap between the two word sets. -/
def textSimilarity (a b : List Char) : ℚ :=
  let wordsA := simWords a
  let wordsB := simWords b
  let intersection := (wordsA.filter (fun w => w ∈ wordsB)).length
  let union := (wordsA ++ wordsB).dedup.length
  if 0 < union then (intersection : ℚ) / (union : ℚ) else 0

/-- An entry of `CorroborationResult.sources`. -/
structure SourceEntry where
  title : String
  source : String
  url : String
  similarity : ℤ
deriving DecidableEq, Repr

/-- `CorroborationResult` (the non-null result record). The `query` field is
absent on the zero-article record, hence an `Option`. -/
structure CorroborationResult where
  found : Nat
  sources : List SourceEntry
  uniqueSourceCount : Nat
  independentPhrasing : Bool
  query : Option String
  summary : String
deriving DecidableEq, Repr

/-- The post-response analysis of `checkCorroboration`: given the first 800
characters of the body and the parsed article list, computes similarity
statistics over the first 8 articles and the independence verdict.
(The keyword-query construction, the unconfigured-key and transport-failure
paths all yield `null` before this point and are handled by the caller.) -/
def corroborationAnalysis (body : List Char) (articles : List Article)
    (query : String) : CorroborationResult :=
  if articles.length = 0 then
    { found := 0, sources := [], uniqueSourceCount := 0, independentPhrasing := false,
      query := none, summary := "No related articles found in recent news." }
  else
    let bodyText := body.take 800
    let sampled := articles.take 8
    let highSimilarityCount :=
      (sampled.filter (fun a =>
        (35 : ℚ)/100 < textSimilarity bodyText (a.title.toList ++ [' '] ++ a.description.toList))).length
    let sources := sampled.map (fun a =>
      { title := a.title, source := a.sourceName, url := a.url,
        similarity := jsRound (textSimilarity bodyText (a.title.toList ++ [' '] ++ a.description.toList) * 100)
        : SourceEntry })
    let sourceDomains := ((sampled.map Article.sourceName).filter (fun n => n ≠ "")).dedup
    let uniqueSourceCount := sourceDomains.length
    let independentPhrasing := 3 ≤ uniqueSourceCount ∧ highSimilarityCount < 3
    { found := articles.length
      sources := sources.take 5
      uniqueSourceCount := uniqueSourceCount
      independentPhrasing := independentPhrasing
      query := some query
      summary :=
        if independentPhrasing then
          toString uniqueSourceCount ++ " independent sources report on this topic with different phrasing — a positive corroboration signal."
        else if 0 < uniqueSourceCount then
          "Found " ++ toString uniqueSourceCount ++ " source" ++
            (if uniqueSourceCount ≠ 1 then "s" else "") ++
            " covering similar claims, but phrasing overlap is high — possible copy-paste republishing."
        else "No independent corroboration found in recent news." }

/-- The three-way threshold map each analyzer applies to its score
(`score >= hi ? 'high' : score >= med ? 'medium' : 'low'`). -/
def levelOf (hi med : ℤ) (score : ℤ) : Level :=
  if hi ≤ score then Level.high else if med ≤ score then Level.medium else Level.low

/-- The shared risk-to-score formula of the temporal and structural
analyzers: `Math.max(5, Math.min(95, Math.round((risk / 10) * 100)))`. -/
def riskScore (risk : ℤ) : ℤ := max 5 (min 95 (jsRound ((risk : ℚ) / 10 * 100)))

-- ───────────────────────────────────────────────────────────────────────────
-- Sourcing analyzer (src/server/services/analyzers/sourcing.js)
-- ───────────────────────────────────────────────────────────────────────────

/-- The text-derived counts `analyzeSourcing` feeds its scoring arithmetic,
passed as explicit inputs of the embedding: `namedSources` is
`person_count + org_count` of the NER model when it answered, otherwise the
`ATTRIBUTION_PATTERNS` regex match count; `anonymousClaims`,
`unattributedClaims` and `links` are the `ANONYMOUS_PATTERNS`,
`CLAIM_INDICATORS` and `https?://` match counts; `namedEntities` is the
deduplicated PER/ORG surface list (empty on the regex fallback). -/
structure SourcingMeasures where
  namedSources : Nat
  anonymousClaims : Nat
  unattributedClaims : Nat
  links : Nat
  modelUsed : Bool
  namedEntities : List String
deriving DecidableEq, Repr

/-- The `details` record of a computed sourcing result. -/
structure SourcingDetails where
  namedSources : Nat
  anonymousClaims : Nat
  externalLinks : Nat
  namedEntities : List String
deriving DecidableEq, Repr

/-- A sourcing `SignalResult`; `modelUsed`/`details` are absent (`none`) on
the canned short-input path. -/
structure SourcingResult where
  level : Level
  score : ℤ
  explanation : String
  modelUsed : Option Bool
  details : Option SourcingDetails
deriving DecidableEq, Repr

/-- The sequential score computation of `analyzeSourcing` (lines 104–110):
start at 50, subtract the capped named-source credit, add the capped
anonymous- and unattributed-claim penalties, subtract the capped link credit
and the author credit, then clamp to `[5, 95]`. -/
def sourcingScore (author : String) (m : SourcingMeasures) : ℤ :=
  let score1 : ℤ := 50 - min (m.namedSources * 8 : ℤ) 30
  let score2 : ℤ := score1 + min (m.anonymousClaims * 5 : ℤ) 15
  let score3 : ℤ := score2 + min (m.unattributedClaims * 3 : ℤ) 20
  let score4 : ℤ := score3 - min (m.links * 3 : ℤ) 10
  let score5 : ℤ := score4 - (if author ≠ "" then 5 else 0)
  max 5 (min 95 score5)

/-- `analyzeSourcing(content)` with its text-derived counts made explicit. -/
def analyzeSourcing (content : Content) (m : SourcingMeasures) : SourcingResult :=
  let text := content.body.toList
  let sentences := jsSentencesL text 10
  if sentences.length < 2 then
    { level := Level.medium, score := 50,
      explanation := "Text is too short to meaningfully assess sourcing patterns.",
      modelUsed := none, details := none }
  else
    let score : ℤ := sourcingScore content.author m
    let level := levelOf 60 35 score
    let source := if m.modelUsed then "bert-base-NER" else "pattern matching (ML unavailable)"
    let claimTotal := m.anonymousClaims + m.unattributedClaims
    let explanation :=
      if level = Level.low then
        "Strong sourcing: " ++ toString m.namedSources ++ " named entity" ++
          (if m.namedSources ≠ 1 then "ies" else "y") ++ " identified" ++
          (if m.namedEntities.length ≠ 0 then
            " (" ++ String.intercalate ", " (m.namedEntities.take 3) ++ ")" else "") ++
          " with " ++ toString m.links ++ " external link" ++
          (if m.links ≠ 1 then "s" else "") ++ ". Assessed via " ++ source ++ "."
      else if level = Level.medium then
        "Limited sourcing: " ++ toString m.namedSources ++ " named source" ++
          (if m.namedSources ≠ 1 then "s" else "") ++ " vs " ++ toString claimTotal ++
          " unsupported or anonymous claim" ++ (if claimTotal ≠ 1 then "s" else "") ++
          ". Assessed via " ++ source ++ "."
      else
        "Weak sourcing: " ++
          (if 0 < m.anonymousClaims then
            toString m.anonymousClaims ++ " anonymous reference" ++
              (if m.anonymousClaims ≠ 1 then "s" else "") ++ ". "
          else "") ++
          "Claims lack clear attribution to named, verifiable sources. Assessed via " ++
          source ++ "."
    { level := level, score := score, explanation := explanation,
      modelUsed := some m.modelUsed,
      details := some ({ namedSources := m.namedSources,
                         anonymousClaims := m.anonymousClaims,
                         externalLinks := m.links,
                         namedEntities := m.namedEntities.take 6 : SourcingDetails }) }

-- ───────────────────────────────────────────────────────────────────────────
-- Synthetic-text analyzer (src/server/services/analyzers/syntheticText.js)
-- ───────────────────────────────────────────────────────────────────────────

/-- The `LLM_PHRASES` table. -/
def LLM_PHRASES : List String :=
  ["it\x27s important to note", "it is important to", "it\x27s worth noting",
   "it is worth mentioning", "in conclusion", "in summary", "to summarize",
   "overall,", "in today\x27s world", "in this day and age", "let\x27s dive in",
   "delve into", "delve deeper", "it\x27s crucial to", "plays a crucial role",
   "navigating the", "landscape of", "tapestry of", "multifaceted", "a myriad of",
   "furthermore,", "moreover,", "additionally,", "consequently,", "nevertheless,",
   "comprehensive guide", "whether you\x27re a", "in the realm of",
   "shed light on", "foster a sense of", "embark on",
   "stands as a testament", "serves as a reminder", "underscores the importance"]

/-- The transition-word table. -/
def TRANSITIONS : List String :=
  ["however", "therefore", "furthermore", "moreover", "additionally",
   "consequently", "nevertheless"]

/-- `heuristicSyntheticScore(text)`: the weighted heuristic in `[0, 1]`.
The JS coefficient-of-variation comparison `cv < c` with
`cv = sqrt(variance) / (avg || 1)` is expressed square-free as
`variance < c^2 * (avg || 1)^2`, equivalent since both sides are
nonnegative. -/
def heuristicSyntheticScore (text : List Char) : ℚ :=
  let lower := toLowerL text
  let sentences := jsSentencesL lower 5
  if sentences.length < 3 then 0
  else
    let phraseMatches := (LLM_PHRASES.map (fun p => countOccsL lower p.toList)).sum
    let phraseDensity : ℚ := (phraseMatches : ℚ) / (sentences.length : ℚ)
    let s1 : ℕ := if (3 : ℚ)/20 < phraseDensity then 3
      else if (1 : ℚ)/20 < phraseDensity then 1 else 0
    let sentLengths := sentences.map (fun s => (jsSplitWsL (trimL s)).length)
    let avg : ℚ := (sentLengths.sum : ℚ) / (sentLengths.length : ℚ)
    let variance : ℚ :=
      ((sentLengths.map (fun l => ((l : ℚ) - avg)^2)).sum) / (sentLengths.length : ℚ)
    let cvBase : ℚ := if avg = 0 then 1 else avg
    let s2 : ℕ := if variance < ((1 : ℚ)/4)^2 * cvBase^2 ∧ 5 < sentences.length then 2
      else if variance < ((7 : ℚ)/20)^2 * cvBase^2 ∧ 5 < sentences.length then 1 else 0
    let words := lowerAlphaWords lower
    let ttr : ℚ := (words.dedup.length : ℚ) /
      ((if words.length = 0 then 1 else words.length : ℕ) : ℚ)
    let s3 : ℕ := if 100 < words.length ∧ (7 : ℚ)/20 < ttr ∧ ttr < (11 : ℚ)/20 then 1 else 0
    let transCount := (TRANSITIONS.map (fun t => countOccsL lower t.toList)).sum
    let transDensity : ℚ := (transCount : ℚ) /
      ((if sentences.length = 0 then 1 else sentences.length : ℕ) : ℚ)
    let s4 : ℕ := if (1 : ℚ)/5 < transDensity then 2
      else if (1 : ℚ)/10 < transDensity then 1 else 0
    min (((s1 + s2 + s3 + s4 : ℕ) : ℚ) / 9) 1

/-- A synthetic-text `SignalResult`; `syntheticProbability` is absent on the
canned short-input path. -/
structure SyntheticResult where
  level : Level
  score : ℤ
  explanation : String
  modelUsed : Bool
  syntheticProbability : Option ℤ
deriving DecidableEq, Repr

/-- `analyzeSyntheticText(content)`, with the detector probability
(`detectSynthetic`, `null` on failure) as an explicit input. -/
def analyzeSyntheticText (content : Content) (mlRaw : Option ℚ) : SyntheticResult :=
  let text := content.body.toList
  let sentences := jsSentencesL text 5
  if sentences.length < 3 then
    { level := Level.low, score := 10,
      explanation := "Text is too short for meaningful synthetic pattern analysis.",
      modelUsed := false, syntheticProbability := none }
  else
    let heuristicRaw := heuristicSyntheticScore text
    let modelUsed := mlRaw.isSome
    let combined : ℚ :=
      match mlRaw with
      | some m => m * ((7 : ℚ)/10) + heuristicRaw * ((3 : ℚ)/10)
      | none => heuristicRaw
    let score : ℤ := jsRound (combined * 100)
    let level := levelOf 60 30 score
    let source := if modelUsed then "RoBERTa classifier (roberta-base-openai-detector)"
      else "heuristic analysis (ML service unavailable)"
    let explanation :=
      if level = Level.low then
        "Text patterns are consistent with human writing. Assessed using " ++ source ++ "."
      else if level = Level.medium then
        "Some patterns resemble LLM-generated content (" ++
          toString (jsRound (combined * 100)) ++
          "% synthetic probability). Assessed using " ++ source ++ "."
      else
        "Strong indicators suggest this text may be AI-generated (" ++
          toString (jsRound (combined * 100)) ++
          "% synthetic probability). Assessed using " ++ source ++ "."
    { level := level, score := score, explanation := explanation,
      modelUsed := modelUsed, syntheticProbability := some (jsRound (combined * 100)) }

-- ───────────────────────────────────────────────────────────────────────────
-- Linguistic analyzer (src/server/services/analyzers/linguistic.js)
-- ───────────────────────────────────────────────────────────────────────────

/-- The `EMOTIONAL_INTENSIFIERS` table. -/
def EMOTIONAL_INTENSIFIERS : List String :=
  ["shocking", "outrageous", "horrifying", "terrifying", "unbelievable", "incredible",
   "amazing", "devastating", "explosive", "bombshell", "disgusting", "sickening",
   "insane", "crazy", "mindblowing", "mind-blowing", "jaw-dropping", "earth-shattering",
   "catastrophic", "apocalyptic", "nightmare", "disaster", "crisis", "emergency",
   "urgent", "warning", "danger", "alarming"]

/-- The `CERTAINTY_WITHOUT_EVIDENCE` table. -/
def CERTAINTY_WITHOUT_EVIDENCE : List String :=
  ["undeniable", "undeniably", "irrefutable", "irrefutably", "proven beyond doubt",
   "without question", "no doubt", "absolutely certain", "definitely", "guaranteed",
   "the truth is", "the fact is", "the reality is", "everyone knows", "it\x27s obvious",
   "obviously", "clearly", "unquestionably", "indisputably", "beyond any doubt",
   "without a doubt", "100%", "impossible", "literally impossible"]

/-- The `MISINFO_TROPES` table. -/
def MISINFO_TROPES : List String :=
  ["they don\x27t want you to know", "what they\x27re not telling you",
   "the media won\x27t report", "mainstream media", "msm", "the government doesn\x27t want",
   "big pharma", "follow the money", "wake up", "sheeple", "do your own research",
   "exposed", "cover-up", "cover up", "suppressed", "the real story", "hidden truth",
   "secret agenda", "conspiracy", "deep state", "controlled opposition", "false flag",
   "plandemic", "hoax", "scam", "psyop", "propaganda", "brainwashed",
   "just asking questions", "think about it", "open your eyes", "connect the dots"]

/-- The all-caps acronym allowlist. -/
def CAPS_ALLOWLIST : List String :=
  ["URL", "HTML", "API", "USA", "FBI", "CIA", "CEO", "NASA", "UN", "EU", "UK",
   "WHO", "GDP", "DNA", "COVID", "NYC", "NFL", "NBA"]

/-- The result record of `heuristicSignals(text)`. -/
structure HeuristicSignals where
  emotionalIntensity : ℚ
  certaintyHits : Nat
  tropeHits : Nat
  sentences : Nat
deriving DecidableEq, Repr

/-- `heuristicSignals(text)`: the always-computed linguistic heuristics. -/
def heuristicSignals (text : List Char) : HeuristicSignals :=
  let lower := toLowerL text
  let sentences := jsSentencesL text 5
  let emotionalHits := (EMOTIONAL_INTENSIFIERS.map (fun w => countBoundedL none lower w.toList)).sum
  let exclamations := text.count '!'
  let capsWords := ((allCapsWords text).filter (fun w => ¬ CAPS_ALLOWLIST.contains w.asString)).length
  let emotionalIntensity : ℚ := ((emotionalHits * 2 + exclamations + capsWords : ℕ) : ℚ) /
    ((if sentences.length = 0 then 1 else sentences.length : ℕ) : ℚ)
  let certaintyHits := (CERTAINTY_WITHOUT_EVIDENCE.filter (fun p => jsIncludesL lower p.toList)).length
  let tropeHits := (MISINFO_TROPES.filter (fun p => jsIncludesL lower p.toList)).length
  { emotionalIntensity := emotionalIntensity, certaintyHits := certaintyHits,
    tropeHits := tropeHits, sentences := sentences.length }

/-- JS `sentiment.scores[key]` lookup, `undefined`/falsy mapped to 0 as by
`|| 0` (and by `undefined > 0.5` being false). -/
def scoreLookup (m : List (String × ℚ)) (k : String) : ℚ :=
  ((m.find? (fun p => p.1 == k)).map Prod.snd).getD 0

/-- The `details` record of a computed linguistic result. -/
structure LingDetails where
  emotionalIntensity : ℚ
  certaintyWithoutEvidence : Nat
  narrativeTropes : Nat
  sentiment : Option (String × List (String × ℚ))
deriving DecidableEq, Repr

/-- A linguistic `SignalResult`; `modelUsed`/`details` are absent on the
canned short-input path. -/
structure LinguisticResult where
  level : Level
  score : ℤ
  explanation : String
  modelUsed : Option Bool
  details : Option LingDetails
deriving DecidableEq, Repr

/-- The linguistic score
`Math.max(5, Math.min(95, Math.round((totalRisk / maxRisk) * 100)))`. -/
def lingScore (totalRisk maxRisk : ℕ) : ℤ :=
  max 5 (min 95 (jsRound ((totalRisk : ℚ) / (maxRisk : ℚ) * 100)))

/-- `analyzeLinguistic(content)`, with the sentiment-model answer
(`analyzeSentiment`, `null` on failure) as an explicit input. -/
def analyzeLinguistic (content : Content) (sentiment : Option SentimentOut) : LinguisticResult :=
  let text := content.body.toList
  let wordCount := (jsSplitWsL text).length
  if wordCount < 15 then
    { level := Level.low, score := 15,
      explanation := "Text is too short for meaningful linguistic risk analysis.",
      modelUsed := none, details := none }
  else
    let h := heuristicSignals text
    let modelUsed := sentiment.isSome
    let sentimentRisk : ℕ :=
      match sentiment with
      | none => 0
      | some s =>
        let negScore := scoreLookup s.scores "negative"
        if (7 : ℚ)/10 < negScore then 3
        else if (1 : ℚ)/2 < negScore then 2
        else if (3 : ℚ)/10 < negScore then 1 else 0
    let t1 : ℕ := if (1 : ℚ)/2 < h.emotionalIntensity then 3
      else if (1 : ℚ)/5 < h.emotionalIntensity then 1 else 0
    let certaintyDensity : ℚ := (h.certaintyHits : ℚ) /
      ((if h.sentences = 0 then 1 else h.sentences : ℕ) : ℚ)
    let t2 : ℕ := if (3 : ℚ)/20 < certaintyDensity then 3
      else if (1 : ℚ)/20 < certaintyDensity then 1 else 0
    let t3 : ℕ := if 3 ≤ h.tropeHits then 3 else h.tropeHits
    let totalRisk : ℕ := sentimentRisk + t1 + t2 + t3
    let maxRisk : ℕ := if modelUsed then 12 else 10
    let score : ℤ := lingScore totalRisk maxRisk
    let level := levelOf 55 25 score
    let source :=
      match sentiment with
      | some s => "twitter-roberta-base-sentiment (" ++ s.label ++ ", " ++
          toString (jsRound (s.score * 100)) ++ "% confidence)"
      | none => "heuristic analysis (ML unavailable)"
    let explanation :=
      if level = Level.low then
        "Language appears measured and informational. " ++
          (match sentiment with
           | some s => "Sentiment model: " ++ s.label ++ ". "
           | none => "") ++
          "No significant manipulation patterns detected."
      else if level = Level.medium then
        let parts :=
          (if (1 : ℚ)/5 < h.emotionalIntensity then ["elevated emotional language"] else []) ++
          (if 0 < h.certaintyHits then ["certainty claims without cited evidence"] else []) ++
          (if 0 < h.tropeHits then ["some misleading content patterns"] else []) ++
          (match sentiment with
           | some s =>
             if (1 : ℚ)/2 < scoreLookup s.scores "negative" then
               ["strongly negative sentiment (" ++ source ++ ")"]
             else []
           | none => [])
        "Moderate linguistic risk: " ++
          (if parts.isEmpty then "patterns warrant attention"
           else String.intercalate ", " parts) ++ "."
      else
        let parts :=
          (if 2 ≤ h.tropeHits then
            [toString h.tropeHits ++ " misinformation narrative patterns"] else []) ++
          (if 2 < h.certaintyHits then ["multiple unsupported certainty claims"] else []) ++
          (if (1 : ℚ)/2 < h.emotionalIntensity then ["high emotional intensity"] else []) ++
          (match sentiment with
           | some s => ["sentiment: " ++ s.label ++ " (" ++ source ++ ")"]
           | none => [])
        "Significant linguistic risk: " ++ String.intercalate "; " parts ++ "."
    { level := level, score := score, explanation := explanation,
      modelUsed := some modelUsed,
      details := some ({ emotionalIntensity := (jsRound (h.emotionalIntensity * 100) : ℚ) / 100,
                         certaintyWithoutEvidence := h.certaintyHits,
                         narrativeTropes := h.tropeHits,
                         sentiment := sentiment.map (fun s => (s.label, s.scores))
                         : LingDetails }) }

-- ───────────────────────────────────────────────────────────────────────────
-- Temporal analyzer (src/server/services/analyzers/temporal.js)
-- ───────────────────────────────────────────────────────────────────────────

/-- The `URGENCY_PHRASES` table. -/
def URGENCY_PHRASES : List String :=
  ["breaking:", "breaking news", "just in:", "just now", "developing story",
   "developing:", "this just happened", "happening now", "right now",
   "urgent:", "urgent update", "live update", "live:", "act now", "act fast",
   "before it\x27s too late", "limited time", "share before", "going viral",
   "share this", "spread the word", "must read", "you need to see this",
   "you won\x27t believe"]

/-- The two regex-derived temporal text measures, passed as explicit inputs
of the embedding: `hasDateInText` is the disjunction of the four date/time
patterns tested on the body; `internalCorroboration` is the total match
count of the seven `CORROBORATION_SIGNALS` regexes. -/
structure TemporalTextSignals where
  hasDateInText : Bool
  internalCorroboration : Nat
deriving DecidableEq, Repr

/-- A temporal `SignalResult`; the `corroboration` field is absent on the
canned short-input path (outer `Option`) and is the possibly-null
`CorroborationResult` otherwise (inner `Option`). -/
structure TemporalResult where
  level : Level
  score : ℤ
  explanation : String
  corroboration : Option (Option CorroborationResult)
deriving DecidableEq, Repr

/-- `analyzeTemporal(content)`, with the regex-derived measures and the
external corroboration answer (`checkCorroboration`, `null` when
unconfigured or failing) as explicit inputs. -/
def analyzeTemporal (content : Content) (tm : TemporalTextSignals)
    (corroboration : Option CorroborationResult) : TemporalResult :=
  let text := content.body.toList
  let lower := toLowerL text
  let sentences := jsSentencesL text 5
  if sentences.length < 2 then
    { level := Level.medium, score := 50,
      explanation := "Text is too short to assess temporal and contextual patterns.",
      corroboration := none }
  else
    let urgencyHits := (URGENCY_PHRASES.filter (fun p => jsIncludesL lower p.toList)).length
    let r1 : ℤ := if 3 ≤ urgencyHits then 3 else if 1 ≤ urgencyHits then 1 else 0
    let d1 : List String :=
      if 3 ≤ urgencyHits then ["Heavy urgency language (" ++ toString urgencyHits ++ " phrases)"]
      else if 1 ≤ urgencyHits then ["Some urgency language"] else []
    let hasDateMeta : Bool := content.date ≠ ""
    let r2 : ℤ := if !hasDateMeta && !tm.hasDateInText then 1 else 0
    let d2 : List String :=
      if !hasDateMeta && !tm.hasDateInText then ["No dates or timestamps found"] else []
    let r3 : ℤ := if tm.internalCorroboration = 0 then 2
      else if 3 ≤ tm.internalCorroboration then -1 else 0
    let d3 : List String :=
      if tm.internalCorroboration = 0 then ["No corroboration signals in text"] else []
    let sharePressure : Bool :=
      jsIncludesL lower "before it gets deleted".toList ||
      jsIncludesL lower "before they take it down".toList ||
      jsIncludesL lower "screenshot this".toList ||
      jsIncludesL lower "save this post".toList
    let r4 : ℤ := if sharePressure then 2 else 0
    let d4 : List String :=
      if sharePressure then ["Pressure to share/save content urgently"] else []
    let r5 : ℤ :=
      match corroboration with
      | none => 0
      | some corr =>
        if corr.found = 0 then 2
        else if corr.independentPhrasing then -2
        else 1
    let d5 : List String :=
      match corroboration with
      | none => []
      | some corr => if corr.found = 0 then ["No matching articles found in recent news"] else []
    let corroborationNote :=
      match corroboration with
      | none => "External corroboration check unavailable (no NewsAPI key configured)."
      | some corr => corr.summary
    let risk : ℤ := max 0 (r1 + r2 + r3 + r4 + r5)
    let score : ℤ := riskScore risk
    let level := levelOf 55 25 score
    let details := d1 ++ d2 ++ d3 ++ d4 ++ d5
    let explanation :=
      if level = Level.low then
        "Content has temporal context and corroboration signals. " ++ corroborationNote
      else if level = Level.medium then
        String.intercalate ". " (details.take 2) ++ ". " ++ corroborationNote
      else
        "Elevated temporal risk: " ++ String.intercalate ". " (details.take 3) ++ ". " ++
          corroborationNote
    { level := level, score := score, explanation := explanation,
      corroboration := some corroboration }

-- ───────────────────────────────────────────────────────────────────────────
-- Structural analyzer (src/server/services/analyzers/structural.js)
-- ───────────────────────────────────────────────────────────────────────────

/-- The `SENSATIONAL_WORDS` table. -/
def SENSATIONAL_WORDS : List String :=
  ["shocking", "bombshell", "explosive", "devastating", "unbelievable",
   "insane", "mind-blowing", "jaw-dropping", "epic", "ultimate",
   "incredible", "extraordinary", "unprecedented", "massive", "huge",
   "stunned", "slammed", "destroyed", "obliterated", "annihilated",
   "blasted", "rocked", "ripped", "torched", "eviscerated"]

/-- The stop words removed from significant title words. -/
def TITLE_STOP_WORDS : List String :=
  ["this", "that", "with", "from", "have", "been", "they", "their", "about",
   "what", "when", "where", "which"]

/-- A structural `SignalResult`. -/
structure StructuralResult where
  level : Level
  score : ℤ
  explanation : String
deriving DecidableEq, Repr

/-- `analyzeStructural(content)`, with the count of matching
`CLICKBAIT_PATTERNS` (each tested on the lowercased title or the first 200
body characters) as an explicit regex-derived input. -/
def analyzeStructural (content : Content) (clickbaitHits : Nat) : StructuralResult :=
  let text := content.body.toList
  let title := content.title.toList
  let lower := toLowerL text
  let wordCount := (jsSplitWsL text).length
  if wordCount < 10 then
    { level := Level.medium, score := 50,
      explanation := "Text is too short to assess structural integrity." }
  else
    let titleTruthy : Bool := content.title ≠ ""
    let p1 : ℤ × List String :=
      if titleTruthy ∧ 5 < title.length then
        let titleWords := (jsSplitWsL ((toLowerL title).filter
            (fun c => ('a' ≤ c && c ≤ 'z') || c.isWhitespace))).filter
          (fun w => 3 < w.length && ¬ TITLE_STOP_WORDS.contains w.asString)
        let overlap := (titleWords.filter (fun w => jsIncludesL lower w)).length
        let alignment : ℚ := if 0 < titleWords.length then
            (overlap : ℚ) / (titleWords.length : ℚ) else 1
        if alignment < (3 : ℚ)/10 then
          (2, ["Headline has weak alignment with the body content — may be misleading or clickbait"])
        else if alignment < (1 : ℚ)/2 then (1, ["Moderate headline-body alignment gap"])
        else (0, [])
      else (0, [])
    let p2 : ℤ × List String :=
      if 2 ≤ clickbaitHits then (3, ["Multiple clickbait framing patterns detected"])
      else if clickbaitHits = 1 then (1, ["Clickbait-style framing detected"])
      else (0, [])
    let titleLower := toLowerL title
    let sensationalInTitle := (SENSATIONAL_WORDS.filter
      (fun w => jsIncludesL titleLower w.toList)).length
    let p3 : ℤ × List String :=
      if 2 ≤ sensationalInTitle then (2, ["Headline uses highly sensational language"])
      else if sensationalInTitle = 1 then (1, [])
      else (0, [])
    let p4 : ℤ × List String :=
      if titleTruthy ∧ (trimL title).getLastD ' ' = '?' then
        (1, ["Question headline — often used to imply claims without making them directly"])
      else (0, [])
    let truncationSignals :=
      ([List.isSuffixOf "...".toList text,
        List.isSuffixOf "…".toList text,
        List.isSuffixOf "Read more".toList text,
        List.isSuffixOf "Continue reading".toList text,
        jsIncludesL text "[...]".toList,
        decide (wordCount < 50) && !(jsIncludes content.source "twitter")
          && !(jsIncludes content.source "x.com")].filter (fun b => b)).length
    let p5 : ℤ × List String :=
      if 2 ≤ truncationSignals then
        (2, ["Content appears truncated or incomplete — may be missing important context"])
      else if truncationSignals = 1 then (1, [])
      else (0, [])
    let p6 : ℤ × List String :=
      if titleTruthy ∧ title = toUpperL title ∧ 10 < title.length then
        (1, ["Title is in ALL CAPS — common in sensational or low-credibility framing"])
      else (0, [])
    let risk : ℤ := p1.1 + p2.1 + p3.1 + p4.1 + p5.1 + p6.1
    let details := p1.2 ++ p2.2 ++ p3.2 ++ p4.2 ++ p5.2 ++ p6.2
    let score : ℤ := riskScore risk
    let level := levelOf 55 25 score
    let explanation :=
      if level = Level.low then
        "Content structure appears standard. Headline aligns with body content, and no significant sensational framing detected."
      else if level = Level.medium then
        String.intercalate ". " (details.take 2) ++ "."
      else
        "Structural concerns: " ++ String.intercalate ". " (details.take 3) ++ "."
    { level := level, score := score, explanation := explanation }

-- ───────────────────────────────────────────────────────────────────────────
-- Shared helper lemmas
-- ───────────────────────────────────────────────────────────────────────────

/-- The confidence band of an all-low signal set whose scores sum below 175
(mean below 35) is low. -/
lemma confidenceBandOf_all_low (a b c d e : ℤ) (hsum : a + b + c + d + e < 175) :
    confidenceBandOf [Level.low, Level.low, Level.low, Level.low, Level.low]
      [a, b, c, d, e] = Level.low := by
  rw [confidenceBandOf]
  have havg : (([a, b, c, d, e] : List ℤ).sum : ℚ) / (([a, b, c, d, e] : List ℤ).length : ℚ) < 35 := by
    have h5 : ((([a, b, c, d, e] : List ℤ).length : ℕ) : ℚ) = 5 := by norm_num
    have hs : (([a, b, c, d, e] : List ℤ).sum : ℚ) = ((a + b + c + d + e : ℤ) : ℚ) := by
      push_cast [List.sum_cons]
      simp
      ring
    rw [h5, hs, div_lt_iff₀ (by norm_num : (0:ℚ) < 5)]
    have hc : ((a + b + c + d + e : ℤ) : ℚ) < 175 := by exact_mod_cast hsum
    linarith
  split_ifs with hA hB
  · exfalso
    rcases hA with hA | hA
    · exact absurd hA (by decide)
    · linarith
  · exfalso
    rcases hB with hB | hB | hB
    · exact absurd hB (by decide)
    · exact absurd hB (by decide)
    · linarith
  · rfl

lemma hfInference_retried_fetches {α : Type} (l : List (FetchOutcome α)) :
    (hfInference l true).2 ≤ 1 := by
  cases l with
  | nil => simp [hfInference]
  | cons o r =>
    cases o with
    | netErr => simp [hfInference]
    | resp s b =>
      by_cases hok : statusOk s = true
      · cases b <;> simp [hfInference, hok]
      · simp [hfInference, hok]

lemma hfInference_fetches {α : Type} (l : List (FetchOutcome α)) :
    (hfInference l false).2 ≤ 2 := by
  cases l with
  | nil => simp [hfInference]
  | cons o r =>
    cases o with
    | netErr => simp [hfInference]
    | resp s b =>
      by_cases h503 : s = 503
      · subst h503
        simp only [hfInference, if_pos (And.intro rfl rfl)]
        have h := hfInference_retried_fetches (α := α) r
        show (hfInference r true).2 + 1 ≤ 2
        omega
      · by_cases hok : statusOk s = true
        · cases b <;> simp [hfInference, h503, hok]
        · simp [hfInference, h503, hok]

lemma levelOf_iff (hi med s : ℤ) (h : med ≤ hi) :
    (levelOf hi med s = Level.high ↔ hi ≤ s) ∧
    (levelOf hi med s = Level.medium ↔ (med ≤ s ∧ s < hi)) ∧
    (levelOf hi med s = Level.low ↔ s < med) := by
  unfold levelOf
  split_ifs with h1 h2 <;> refine ⟨?_, ?_, ?_⟩ <;> simp_all <;> try omega

lemma foldl_top_mem (l : List (String × ℚ)) (t0 : String × ℚ) :
    l.foldl (fun t l => if t.2 < l.2 then l else t) t0 = t0 ∨
    l.foldl (fun t l => if t.2 < l.2 then l else t) t0 ∈ l := by
  induction l generalizing t0 with
  | nil => left; rfl
  | cons x xs ih =>
    simp only [List.foldl_cons]
    rcases ih (if t0.2 < x.2 then x else t0) with h | h
    · rw [h]
      split_ifs with hc
      · right
        exact List.mem_cons_self x xs
      · left
        rfl
    · right
      exact List.mem_cons_of_mem _ h

lemma foldl_top_ge (l : List (String × ℚ)) (t0 : String × ℚ) :
    t0.2 ≤ (l.foldl (fun t l => if t.2 < l.2 then l else t) t0).2 ∧
    ∀ p ∈ l, p.2 ≤ (l.foldl (fun t l => if t.2 < l.2 then l else t) t0).2 := by
  induction l generalizing t0 with
  | nil => simp
  | cons x xs ih =>
    have h := ih (if t0.2 < x.2 then x else t0)
    simp only [List.foldl_cons]
    constructor
    · refine le_trans ?_ h.1
      split_ifs with hc
      · exact le_of_lt hc
      · exact le_refl _
    · intro p hp
      rcases List.mem_cons.mp hp with hp | hp
      · subst hp
        refine le_trans ?_ h.1
        split_ifs with hc
        · exact le_refl _
        · exact not_lt.mp hc
      · exact h.2 p hp

lemma upsert_keys_mem (m : List (String × ℚ)) (k k2 : String) (v : ℚ) :
    k2 ∈ (upsert m k v).map Prod.fst ↔ (k2 ∈ m.map Prod.fst ∨ k2 = k) := by
  induction m with
  | nil => simp [upsert]
  | cons x xs ih =>
    simp only [upsert]
    split_ifs with hc
    · subst hc
      simp
      tauto
    · simp only [List.map_cons, List.mem_cons]
      rw [ih]
      tauto

lemma foldl_scores_keys (labels : List (String × ℚ)) (acc : List (String × ℚ)) (k : String) :
    k ∈ ((labels.foldl (fun m l => upsert m (sentimentKey l.1) l.2) acc).map Prod.fst) ↔
    (k ∈ acc.map Prod.fst ∨ k ∈ labels.map (fun p => sentimentKey p.1)) := by
  induction labels generalizing acc with
  | nil => simp
  | cons x xs ih =>
    simp only [List.foldl_cons, List.map_cons, List.mem_cons]
    rw [ih, upsert_keys_mem]
    tauto

lemma clampZ_bounds (x : ℤ) : 5 ≤ max 5 (min 95 x) ∧ max 5 (min 95 x) ≤ 95 :=
  ⟨le_max_left _ _, max_le (by norm_num) (min_le_left _ _)⟩

lemma sourcingScore_bounds (author : String) (m : SourcingMeasures) :
    5 ≤ sourcingScore author m ∧ sourcingScore author m ≤ 95 :=
  clampZ_bounds _

lemma lingScore_bounds (totalRisk maxRisk : ℕ) :
    5 ≤ lingScore totalRisk maxRisk ∧ lingScore totalRisk maxRisk ≤ 95 :=
  clampZ_bounds _

lemma riskScore_bounds (risk : ℤ) : 5 ≤ riskScore risk ∧ riskScore risk ≤ 95 :=
  clampZ_bounds _

lemma heuristicSyntheticScore_bounds (text : List Char) :
    0 ≤ heuristicSyntheticScore text ∧ heuristicSyntheticScore text ≤ 1 := by
  by_cases hg : (jsSentencesL (toLowerL text) 5).length < 3
  · simp only [heuristicSyntheticScore, if_pos hg]
    norm_num
  · simp only [heuristicSyntheticScore, if_neg hg]
    constructor
    · exact le_min (div_nonneg (Nat.cast_nonneg _) (by norm_num)) zero_le_one
    · exact min_le_right _ _

lemma jsRound_prob_bounds (q : ℚ) (h0 : 0 ≤ q) (h1 : q ≤ 1) :
    0 ≤ jsRound (q * 100) ∧ jsRound (q * 100) ≤ 100 := by
  unfold jsRound
  constructor
  · apply Int.le_floor.mpr
    push_cast
    linarith
  · calc ⌊q * 100 + 1 / 2⌋ ≤ ⌊(201 : ℚ) / 2⌋ := Int.floor_le_floor (by linarith)
      _ = 100 := by norm_num

lemma heuristic_syn_zero :
    heuristicSyntheticScore ("abcdef. ghijkl. mnopqr.".toList) = 0 := by
  have h1 : toLowerL ("abcdef. ghijkl. mnopqr.".toList) = "abcdef. ghijkl. mnopqr.".toList := by
    decide
  have h2 : (jsSentencesL ("abcdef. ghijkl. mnopqr.".toList) 5).length = 3 := by decide
  have h3 : (jsSentencesL ("abcdef. ghijkl. mnopqr.".toList) 5).map
      (fun s => (jsSplitWsL (trimL s)).length) = [1, 1, 1] := by decide
  have h4 : (LLM_PHRASES.map (fun p => countOccsL ("abcdef. ghijkl. mnopqr.".toList) p.toList)).sum
      = 0 := by decide
  have h5 : (TRANSITIONS.map (fun t => countOccsL ("abcdef. ghijkl. mnopqr.".toList) t.toList)).sum
      = 0 := by decide
  have h6 : (lowerAlphaWords ("abcdef. ghijkl. mnopqr.".toList)).dedup.length = 3 := by decide
  have h7 : (lowerAlphaWords ("abcdef. ghijkl. mnopqr.".toList)).length = 3 := by decide
  simp only [heuristicSyntheticScore, h1, h2, h3, h4, h5, h6, h7]
  norm_num

lemma syntheticText_example_score :
    (analyzeSyntheticText
      ⟨"", "abcdef. ghijkl. mnopqr.", "", "", "", "manual-paste"⟩ none).score = 0 := by
  have hg : ¬((jsSentencesL ("abcdef. ghijkl. mnopqr.".toList) 5).length < 3) := by decide
  simp only [analyzeSyntheticText]
  rw [if_neg hg, heuristic_syn_zero]
  norm_num [jsRound]

/-- Disagreement shape over an arbitrary quintuple of levels, by exhaustive
case analysis over the 243 level combinations. -/
lemma mkDisagreements_quint (a b c d e : Level) :
    (mkDisagreements [a, b, c, d, e]).length ≤ 1 ∧
    ((mkDisagreements [a, b, c, d, e]).length = 1 ↔
      (Level.high ∈ [a, b, c, d, e] ∧ Level.low ∈ [a, b, c, d, e])) := by
  cases a <;> cases b <;> cases c <;> cases d <;> cases e <;> decide

-- ───────────────────────────────────────────────────────────────────────────
-- Theorems
-- ───────────────────────────────────────────────────────────────────────────

/-- C1: for every set of five SignalResults, the aggregator's confidence band
is `high` iff at least 3 of the 5 levels are `high` or the mean of the five
scores is at least 65; otherwise it is `medium` iff at least one level is
`high`, or at least 3 levels are `medium`, or the mean score is at least 35;
otherwise it is `low`. -/
theorem claim_C1_confidence_band (s : Signals) (c : Content) :
    ((aggregate s c).confidenceBand = Level.high ↔
      (3 ≤ ([s.syntheticText.level, s.sourcing.level, s.linguistic.level,
          s.temporal.level, s.structural.level].filter (fun l => l == Level.high)).length ∨
       65 ≤ ((s.syntheticText.score + s.sourcing.score + s.linguistic.score +
          s.temporal.score + s.structural.score : ℤ) : ℚ) / 5)) ∧
    ((aggregate s c).confidenceBand = Level.medium ↔
      (¬(3 ≤ ([s.syntheticText.level, s.sourcing.level, s.linguistic.level,
            s.temporal.level, s.structural.level].filter (fun l => l == Level.high)).length ∨
         65 ≤ ((s.syntheticText.score + s.sourcing.score + s.linguistic.score +
            s.temporal.score + s.structural.score : ℤ) : ℚ) / 5) ∧
       (1 ≤ ([s.syntheticText.level, s.sourcing.level, s.linguistic.level,
            s.temporal.level, s.structural.level].filter (fun l => l == Level.high)).length ∨
        3 ≤ ([s.syntheticText.level, s.sourcing.level, s.linguistic.level,
            s.temporal.level, s.structural.level].filter (fun l => l == Level.medium)).length ∨
        35 ≤ ((s.syntheticText.score + s.sourcing.score + s.linguistic.score +
            s.temporal.score + s.structural.score : ℤ) : ℚ) / 5))) ∧
    ((aggregate s c).confidenceBand = Level.low ↔
      (¬(3 ≤ ([s.syntheticText.level, s.sourcing.level, s.linguistic.level,
            s.temporal.level, s.structural.level].filter (fun l => l == Level.high)).length ∨
         65 ≤ ((s.syntheticText.score + s.sourcing.score + s.linguistic.score +
            s.temporal.score + s.structural.score : ℤ) : ℚ) / 5) ∧
       ¬(1 ≤ ([s.syntheticText.level, s.sourcing.level, s.linguistic.level,
            s.temporal.level, s.structural.level].filter (fun l => l == Level.high)).length ∨
         3 ≤ ([s.syntheticText.level, s.sourcing.level, s.linguistic.level,
            s.temporal.level, s.structural.level].filter (fun l => l == Level.medium)).length ∨
         35 ≤ ((s.syntheticText.score + s.sourcing.score + s.linguistic.score +
            s.temporal.score + s.structural.score : ℤ) : ℚ) / 5))) := by
  have h : (aggregate s c).confidenceBand
      = confidenceBandOf
          [s.syntheticText.level, s.sourcing.level, s.linguistic.level,
            s.temporal.level, s.structural.level]
          [s.syntheticText.score, s.sourcing.score, s.linguistic.score,
            s.temporal.score, s.structural.score] := rfl
  rw [h, confidenceBandOf]
  have hm : (([s.syntheticText.score, s.sourcing.score, s.linguistic.score,
        s.temporal.score, s.structural.score].sum : ℤ) : ℚ) /
        (([s.syntheticText.score, s.sourcing.score, s.linguistic.score,
          s.temporal.score, s.structural.score] : List ℤ).length : ℚ)
      = ((s.syntheticText.score + s.sourcing.score + s.linguistic.score +
          s.temporal.score + s.structural.score : ℤ) : ℚ) / 5 := by
    simp [List.sum_cons]
    ring_nf
  simp only [hm]
  split_ifs with h1 h2 <;> simp_all

/-- C8: if all five levels are `low` and each score is below its analyzer's
medium cutoff (30 synthetic, 35 sourcing, 25 linguistic, 25 temporal,
25 structural), the band is `low` and there are no disagreements. -/
theorem claim_C8_all_low (s : Signals) (c : Content)
    (h1 : s.syntheticText.level = Level.low) (h2 : s.sourcing.level = Level.low)
    (h3 : s.linguistic.level = Level.low) (h4 : s.temporal.level = Level.low)
    (h5 : s.structural.level = Level.low)
    (g1 : s.syntheticText.score < 30) (g2 : s.sourcing.score < 35)
    (g3 : s.linguistic.score < 25) (g4 : s.temporal.score < 25)
    (g5 : s.structural.score < 25) :
    (aggregate s c).confidenceBand = Level.low ∧ (aggregate s c).disagreements = [] := by
  constructor
  · have h : (aggregate s c).confidenceBand
        = confidenceBandOf
            [s.syntheticText.level, s.sourcing.level, s.linguistic.level,
              s.temporal.level, s.structural.level]
            [s.syntheticText.score, s.sourcing.score, s.linguistic.score,
              s.temporal.score, s.structural.score] := rfl
    rw [h, h1, h2, h3, h4, h5]
    exact confidenceBandOf_all_low _ _ _ _ _ (by omega)
  · have h : (aggregate s c).disagreements
        = mkDisagreements [s.syntheticText.level, s.sourcing.level, s.linguistic.level,
            s.temporal.level, s.structural.level] := rfl
    rw [h, h1, h2, h3, h4, h5]
    decide

/-- Witness for C8 at a concrete all-low signal set. -/
theorem claim_C8_all_low_witness :
    (aggregate
        ⟨⟨Level.low, 10, "a"⟩, ⟨Level.low, 12, "b"⟩, ⟨Level.low, 8, "c"⟩,
          ⟨Level.low, 9, "d"⟩, ⟨Level.low, 11, "e"⟩⟩
        ⟨"t", "some body", "", "", "", "example.com"⟩).confidenceBand = Level.low ∧
    (aggregate
        ⟨⟨Level.low, 10, "a"⟩, ⟨Level.low, 12, "b"⟩, ⟨Level.low, 8, "c"⟩,
          ⟨Level.low, 9, "d"⟩, ⟨Level.low, 11, "e"⟩⟩
        ⟨"t", "some body", "", "", "", "example.com"⟩).disagreements = [] :=
  claim_C8_all_low _ _ rfl rfl rfl rfl rfl (by decide) (by decide) (by decide)
    (by decide) (by decide)

/-- C10: the disagreements list has at most one entry, and has exactly one
entry iff the five levels contain both a `high` and a `low`. -/
theorem claim_C10_disagreements (s : Signals) (c : Content) :
    (aggregate s c).disagreements.length ≤ 1 ∧
    ((aggregate s c).disagreements.length = 1 ↔
      (Level.high ∈ [s.syntheticText.level, s.sourcing.level, s.linguistic.level,
          s.temporal.level, s.structural.level] ∧
       Level.low ∈ [s.syntheticText.level, s.sourcing.level, s.linguistic.level,
          s.temporal.level, s.structural.level])) := by
  have h : (aggregate s c).disagreements
      = mkDisagreements [s.syntheticText.level, s.sourcing.level, s.linguistic.level,
          s.temporal.level, s.structural.level] := rfl
  rw [h]
  exact mkDisagreements_quint _ _ _ _ _

/-- C4: the Inference Client never throws: on a 503 it retries exactly once
after the fixed backoff, so 503-then-200 yields the parsed second response,
two 503s yield null, and any other non-success status, network error, or
malformed body yields null; no call path performs more than two fetches. -/
theorem claim_C4_hfInference (α : Type) (b1 b2 : Option α) (p : α)
    (rest : List (FetchOutcome α)) :
    (hfInference (FetchOutcome.resp 503 b1 :: FetchOutcome.resp 200 (some p) :: rest) false
      = (some p, 2)) ∧
    (hfInference (FetchOutcome.resp 503 b1 :: FetchOutcome.resp 503 b2 :: rest) false
      = (none, 2)) ∧
    (∀ s : Nat, statusOk s = false → s ≠ 503 → ∀ b : Option α,
      hfInference (FetchOutcome.resp s b :: rest) false = (none, 1)) ∧
    (hfInference (FetchOutcome.netErr :: rest) false = (none, 1)) ∧
    (∀ s : Nat, statusOk s = true →
      hfInference (FetchOutcome.resp s none :: rest) false = (none, 1)) ∧
    (∀ outcomes : List (FetchOutcome α), (hfInference outcomes false).2 ≤ 2) := by
  refine ⟨rfl, rfl, ?_, rfl, ?_, fun outcomes => hfInference_fetches outcomes⟩
  · intro s hs h503 b
    simp [hfInference, hs, h503]
  · intro s hs
    have h503 : s ≠ 503 := by
      intro h
      subst h
      simp [statusOk] at hs
    simp [hfInference, hs, h503]

/-- Witness for C4 at concrete outcome streams. -/
theorem claim_C4_witness :
    (hfInference [FetchOutcome.resp 503 (none : Option Nat), FetchOutcome.resp 200 (some 7)] false
      = (some 7, 2)) ∧
    (hfInference [FetchOutcome.resp 503 (none : Option Nat), FetchOutcome.resp 503 none] false
      = (none, 2)) ∧
    (statusOk 404 = false ∧ (404 : Nat) ≠ 503 ∧
      hfInference [FetchOutcome.resp 404 (some (7 : Nat))] false = (none, 1)) ∧
    (hfInference [(FetchOutcome.netErr : FetchOutcome Nat)] false = (none, 1)) ∧
    (statusOk 200 = true ∧
      hfInference [FetchOutcome.resp 200 (none : Option Nat)] false = (none, 1)) := by
  have h := claim_C4_hfInference Nat none none 7 []
  exact ⟨h.1, h.2.1, by decide, (claim_C4_hfInference Nat none none 7 []).2.2.2.1,
    by decide⟩

/-- C5: for every Content passing the sourcing length guard, the score is
`clamp(50 − min(named·8,30) + min(anon·5,15) + min(unattr·3,20) − min(links·3,10)
− (author?5:0), 5, 95)`, the level is high iff score ≥ 60, medium iff
35 ≤ score < 60, low iff score < 35; and author present with counts
(2, 0, 0, 0) gives score 29 and level low. -/
theorem claim_C5_sourcing (c : Content) (m : SourcingMeasures)
    (hguard : 2 ≤ (jsSentencesL c.body.toList 10).length) :
    ((analyzeSourcing c m).score =
      max 5 (min 95 (50 - min (m.namedSources * 8 : ℤ) 30 + min (m.anonymousClaims * 5 : ℤ) 15
        + min (m.unattributedClaims * 3 : ℤ) 20 - min (m.links * 3 : ℤ) 10
        - (if c.author ≠ "" then 5 else 0)))) ∧
    ((analyzeSourcing c m).level = Level.high ↔ 60 ≤ (analyzeSourcing c m).score) ∧
    ((analyzeSourcing c m).level = Level.medium ↔
      (35 ≤ (analyzeSourcing c m).score ∧ (analyzeSourcing c m).score < 60)) ∧
    ((analyzeSourcing c m).level = Level.low ↔ (analyzeSourcing c m).score < 35) ∧
    (c.author ≠ "" → m.namedSources = 2 → m.anonymousClaims = 0 → m.unattributedClaims = 0 →
      m.links = 0 →
      ((analyzeSourcing c m).score = 29 ∧ (analyzeSourcing c m).level = Level.low)) := by
  have hg : ¬((jsSentencesL c.body.toList 10).length < 2) := by omega
  have hscore : (analyzeSourcing c m).score = sourcingScore c.author m := by
    simp only [analyzeSourcing, if_neg hg]
  have hflat : sourcingScore c.author m =
      max 5 (min 95 (50 - min (m.namedSources * 8 : ℤ) 30 + min (m.anonymousClaims * 5 : ℤ) 15
        + min (m.unattributedClaims * 3 : ℤ) 20 - min (m.links * 3 : ℤ) 10
        - (if c.author ≠ "" then 5 else 0))) := rfl
  have hlevel : (analyzeSourcing c m).level = levelOf 60 35 (sourcingScore c.author m) := by
    simp only [analyzeSourcing, if_neg hg]
  have hiff := levelOf_iff 60 35 (sourcingScore c.author m) (by norm_num)
  refine ⟨hscore.trans hflat, ?_, ?_, ?_, ?_⟩
  · rw [hlevel, hscore]
    exact hiff.1
  · rw [hlevel, hscore]
    exact hiff.2.1
  · rw [hlevel, hscore]
    exact hiff.2.2
  · intro ha h2 h3 h4 h5
    have h29 : (analyzeSourcing c m).score = 29 := by
      rw [hscore, hflat, h2, h3, h4, h5, if_pos ha]
      norm_num
    refine ⟨h29, ?_⟩
    rw [hlevel, hscore.symm, h29]
    norm_num [levelOf]

/-- Witness for C5 at a concrete two-sentence content. -/
theorem claim_C5_witness :
    2 ≤ (jsSentencesL ("This sentence is long enough. Another sentence long enough too.").toList 10).length ∧
    ((analyzeSourcing
        ⟨"", "This sentence is long enough. Another sentence long enough too.", "", "Jane Doe", "", "example.com"⟩
        ⟨2, 0, 0, 0, true, []⟩).score = 29 ∧
      (analyzeSourcing
        ⟨"", "This sentence is long enough. Another sentence long enough too.", "", "Jane Doe", "", "example.com"⟩
        ⟨2, 0, 0, 0, true, []⟩).level = Level.low) :=
  ⟨by decide,
    (claim_C5_sourcing
      ⟨"", "This sentence is long enough. Another sentence long enough too.", "", "Jane Doe", "", "example.com"⟩
      ⟨2, 0, 0, 0, true, []⟩ (by decide)).2.2.2.2
      (by decide) rfl rfl rfl rfl⟩

/-- C6: for every non-empty article list, independentPhrasing is true iff
the sampled (first 8) articles carry at least 3 distinct non-empty source
names and fewer than 3 of them exceed 0.35 similarity to the first 800 body
characters; in particular 4 distinct names with 0 high-similarity articles
give true, and at least 3 high-similarity sampled articles give false. -/
theorem claim_C6_corroboration (body : List Char) (articles : List Article) (q : String)
    (hne : articles ≠ []) :
    (((corroborationAnalysis body articles q).independentPhrasing = true ↔
      (3 ≤ (((articles.take 8).map Article.sourceName).filter (fun n => n ≠ "")).dedup.length ∧
       ((articles.take 8).filter (fun a => (35 : ℚ)/100 <
          textSimilarity (body.take 800)
            (a.title.toList ++ [' '] ++ a.description.toList))).length < 3)) ∧
     ((((articles.take 8).map Article.sourceName).filter (fun n => n ≠ "")).dedup.length = 4 →
      ((articles.take 8).filter (fun a => (35 : ℚ)/100 <
          textSimilarity (body.take 800)
            (a.title.toList ++ [' '] ++ a.description.toList))).length = 0 →
      (corroborationAnalysis body articles q).independentPhrasing = true) ∧
     (3 ≤ ((articles.take 8).filter (fun a => (35 : ℚ)/100 <
          textSimilarity (body.take 800)
            (a.title.toList ++ [' '] ++ a.description.toList))).length →
      (corroborationAnalysis body articles q).independentPhrasing = false)) := by
  have hlen : ¬(articles.length = 0) := by
    simpa using hne
  have hmain : (corroborationAnalysis body articles q).independentPhrasing = true ↔
      (3 ≤ (((articles.take 8).map Article.sourceName).filter (fun n => n ≠ "")).dedup.length ∧
       ((articles.take 8).filter (fun a => (35 : ℚ)/100 <
          textSimilarity (body.take 800)
            (a.title.toList ++ [' '] ++ a.description.toList))).length < 3) := by
    simp only [corroborationAnalysis, if_neg hlen]
    simp [decide_eq_true_iff]
  refine ⟨hmain, ?_, ?_⟩
  · intro h4 h0
    rw [hmain]
    omega
  · intro h3
    by_contra hfalse
    have : (corroborationAnalysis body articles q).independentPhrasing = true := by
      cases hb : (corroborationAnalysis body articles q).independentPhrasing
      · exact absurd hb hfalse
      · rfl
    rw [hmain] at this
    omega

/-- Witness for C6 at a concrete four-article list with distinct sources and
zero similarity. -/
theorem claim_C6_witness :
    (([⟨"zz", "ww", "S1", "u"⟩, ⟨"yy", "xx", "S2", "u"⟩, ⟨"vv", "uu", "S3", "u"⟩,
       ⟨"tt", "ss", "S4", "u"⟩] : List Article) ≠ []) ∧
    (corroborationAnalysis ("aa bb cc".toList)
        [⟨"zz", "ww", "S1", "u"⟩, ⟨"yy", "xx", "S2", "u"⟩, ⟨"vv", "uu", "S3", "u"⟩,
         ⟨"tt", "ss", "S4", "u"⟩] "query").independentPhrasing = true := by
  refine ⟨by decide, ?_⟩
  apply (claim_C6_corroboration ("aa bb cc".toList)
      [⟨"zz", "ww", "S1", "u"⟩, ⟨"yy", "xx", "S2", "u"⟩, ⟨"vv", "uu", "S3", "u"⟩,
       ⟨"tt", "ss", "S4", "u"⟩] "query" (by decide)).2.1
  · decide
  · have e1 : textSimilarity ['a', 'a', ' ', 'b', 'b', ' ', 'c', 'c'] ['z', 'z', ' ', 'w', 'w']
        = 0 := by decide
    have e2 : textSimilarity ['a', 'a', ' ', 'b', 'b', ' ', 'c', 'c'] ['y', 'y', ' ', 'x', 'x']
        = 0 := by decide
    have e3 : textSimilarity ['a', 'a', ' ', 'b', 'b', ' ', 'c', 'c'] ['v', 'v', ' ', 'u', 'u']
        = 0 := by decide
    have e4 : textSimilarity ['a', 'a', ' ', 'b', 'b', ' ', 'c', 'c'] ['t', 't', ' ', 's', 's']
        = 0 := by decide
    have hlt : ¬((35 : ℚ)/100 < 0) := by norm_num
    simp [List.filter, e1, e2, e3, e4, hlt]

/-- C7 (amended): for every well-formed (non-empty) sentiment response, the
returned score is the maximum confidence and the label is the top-label
normalization of a maximum-confidence class; the scores-map keys normalize
numeric identifiers (bare or `label_`-prefixed, case-insensitively) to
negative/neutral/positive; bare `0`/`1`/`2` labels are normalized in the
returned label too, but `LABEL_k` labels are only lowercased there. -/
theorem claim_C7_amended (l0 : String × ℚ) (rest : List (String × ℚ)) :
    (∀ p ∈ l0 :: rest, p.2 ≤ (analyzeSentimentCore l0 rest).score) ∧
    (∃ p ∈ l0 :: rest, p.2 = (analyzeSentimentCore l0 rest).score ∧
      (analyzeSentimentCore l0 rest).label = sentimentTopLabel p.1) ∧
    (∀ k, k ∈ (analyzeSentimentCore l0 rest).scores.map Prod.fst ↔
      k ∈ (l0 :: rest).map (fun p => sentimentKey p.1)) ∧
    (sentimentKey "0" = "negative" ∧ sentimentKey "1" = "neutral" ∧
     sentimentKey "2" = "positive" ∧ sentimentKey "LABEL_0" = "negative" ∧
     sentimentKey "LABEL_1" = "neutral" ∧ sentimentKey "LABEL_2" = "positive" ∧
     sentimentTopLabel "0" = "negative" ∧ sentimentTopLabel "1" = "neutral" ∧
     sentimentTopLabel "2" = "positive" ∧ sentimentTopLabel "LABEL_1" = "label_1") ∧
    ((∀ p ∈ l0 :: rest, p.1 ∈ (["0", "1", "2"] : List String)) →
      (analyzeSentimentCore l0 rest).label ∈
        (["negative", "neutral", "positive"] : List String)) := by
  have hscore : (analyzeSentimentCore l0 rest).score
      = ((l0 :: rest).foldl (fun t l => if t.2 < l.2 then l else t) l0).2 := rfl
  have hlabel : (analyzeSentimentCore l0 rest).label
      = sentimentTopLabel ((l0 :: rest).foldl (fun t l => if t.2 < l.2 then l else t) l0).1 := rfl
  have hmem : ((l0 :: rest).foldl (fun t l => if t.2 < l.2 then l else t) l0) ∈ l0 :: rest := by
    rcases foldl_top_mem (l0 :: rest) l0 with h | h
    · rw [h]
      exact List.mem_cons_self _ _
    · exact h
  refine ⟨?_, ?_, ?_, by decide, ?_⟩
  · intro p hp
    rw [hscore]
    exact (foldl_top_ge (l0 :: rest) l0).2 p hp
  · exact ⟨_, hmem, hscore.symm, hlabel⟩
  · intro k
    have h := foldl_scores_keys (l0 :: rest) [] k
    simpa using h
  · intro hall
    rw [hlabel]
    have h1 := hall _ hmem
    simp only [List.mem_cons, List.not_mem_nil, or_false] at h1
    rcases h1 with h1 | h1 | h1 <;> rw [h1] <;> decide

/-- C7 counterexample: a well-formed response with `LABEL_k` identifiers
keeps a non-normalized `label_1` in the returned label field, refuting the
claim that numeric identifiers are normalized in both places. -/
theorem claim_C7_counterexample :
    (analyzeSentimentCore ("LABEL_1", 1) [("LABEL_0", 0)]).label = "label_1" ∧
    ("label_1" ∉ (["positive", "neutral", "negative"] : List String)) ∧
    (analyzeSentimentCore ("LABEL_1", 1) [("LABEL_0", 0)]).scores.map Prod.fst
      = ["neutral", "negative"] ∧
    (analyzeSentimentCore ("LABEL_1", 1) [("LABEL_0", 0)]).score = 1 := by
  refine ⟨?_, by decide, ?_, ?_⟩ <;> decide

/-- Witness for C7 at a concrete bare-numeric response. -/
theorem claim_C7_witness :
    (∀ p ∈ [(("1" : String), (1 : ℚ)), (("0" : String), (0 : ℚ))],
      p.1 ∈ (["0", "1", "2"] : List String)) ∧
    (analyzeSentimentCore ("1", 1) [("0", 0)]).label ∈
      (["negative", "neutral", "positive"] : List String) :=
  ⟨by decide, (claim_C7_amended ("1", 1) [("0", 0)]).2.2.2.2 (by decide)⟩

/-- C2 (amended): the clamp invariant `5 ≤ score ≤ 95` holds for the
sourcing, linguistic, temporal and structural analyzers on every path, and
for the synthetic-text canned path (score 10); the synthetic-text computed
path is unclamped and only satisfies `0 ≤ score ≤ 100` (given a model
probability in `[0, 1]`). -/
theorem claim_C2_amended :
    (∀ (c : Content) (m : SourcingMeasures),
      5 ≤ (analyzeSourcing c m).score ∧ (analyzeSourcing c m).score ≤ 95) ∧
    (∀ (c : Content) (s : Option SentimentOut),
      5 ≤ (analyzeLinguistic c s).score ∧ (analyzeLinguistic c s).score ≤ 95) ∧
    (∀ (c : Content) (tm : TemporalTextSignals) (corr : Option CorroborationResult),
      5 ≤ (analyzeTemporal c tm corr).score ∧ (analyzeTemporal c tm corr).score ≤ 95) ∧
    (∀ (c : Content) (k : ℕ),
      5 ≤ (analyzeStructural c k).score ∧ (analyzeStructural c k).score ≤ 95) ∧
    (∀ (c : Content) (p : Option ℚ), (jsSentencesL c.body.toList 5).length < 3 →
      (analyzeSyntheticText c p).score = 10) ∧
    (∀ (c : Content),
      0 ≤ (analyzeSyntheticText c none).score ∧ (analyzeSyntheticText c none).score ≤ 100) ∧
    (∀ (c : Content) (p : ℚ), 0 ≤ p → p ≤ 1 →
      0 ≤ (analyzeSyntheticText c (some p)).score ∧
        (analyzeSyntheticText c (some p)).score ≤ 100) := by
  refine ⟨?_, ?_, ?_, ?_, ?_, ?_, ?_⟩
  · intro c m
    by_cases hg : (jsSentencesL c.body.toList 10).length < 2
    · simp only [analyzeSourcing, if_pos hg]
      norm_num
    · simp only [analyzeSourcing, if_neg hg]
      exact sourcingScore_bounds _ _
  · intro c s
    by_cases hg : (jsSplitWsL c.body.toList).length < 15
    · simp only [analyzeLinguistic, if_pos hg]
      norm_num
    · simp only [analyzeLinguistic, if_neg hg]
      exact lingScore_bounds _ _
  · intro c tm corr
    by_cases hg : (jsSentencesL c.body.toList 5).length < 2
    · simp only [analyzeTemporal, if_pos hg]
      norm_num
    · simp only [analyzeTemporal, if_neg hg]
      exact riskScore_bounds _
  · intro c k
    by_cases hg : (jsSplitWsL c.body.toList).length < 10
    · simp only [analyzeStructural, if_pos hg]
      norm_num
    · simp only [analyzeStructural, if_neg hg]
      exact riskScore_bounds _
  · intro c p hg
    simp only [analyzeSyntheticText, if_pos hg]
  · intro c
    by_cases hg : (jsSentencesL c.body.toList 5).length < 3
    · simp only [analyzeSyntheticText, if_pos hg]
      norm_num
    · simp only [analyzeSyntheticText, if_neg hg]
      exact jsRound_prob_bounds _ (heuristicSyntheticScore_bounds _).1
        (heuristicSyntheticScore_bounds _).2
  · intro c p hp0 hp1
    by_cases hg : (jsSentencesL c.body.toList 5).length < 3
    · simp only [analyzeSyntheticText, if_pos hg]
      norm_num
    · simp only [analyzeSyntheticText, if_neg hg]
      have hh := heuristicSyntheticScore_bounds c.body.toList
      apply jsRound_prob_bounds
      · have := mul_nonneg hp0 (by norm_num : (0:ℚ) ≤ 7/10)
        have := mul_nonneg hh.1 (by norm_num : (0:ℚ) ≤ 3/10)
        linarith
      · have h1 : p * (7/10 : ℚ) ≤ 1 * (7/10 : ℚ) :=
          mul_le_mul_of_nonneg_right hp1 (by norm_num)
        have h2 : heuristicSyntheticScore c.body.toList * (3/10 : ℚ) ≤ 1 * (3/10 : ℚ) :=
          mul_le_mul_of_nonneg_right hh.2 (by norm_num)
        linarith

/-- Witness for C2 at concrete contents and measures. -/
theorem claim_C2_witness :
    ((jsSentencesL ("abc").toList 5).length < 3 ∧
      (analyzeSyntheticText ⟨"", "abc", "", "", "", "x"⟩ none).score = 10) ∧
    (5 ≤ (analyzeSourcing ⟨"", "abc", "", "", "", "x"⟩ ⟨0, 0, 0, 0, false, []⟩).score ∧
      (analyzeSourcing ⟨"", "abc", "", "", "", "x"⟩ ⟨0, 0, 0, 0, false, []⟩).score ≤ 95) ∧
    ((0 : ℚ) ≤ 1/2 ∧ (1/2 : ℚ) ≤ 1 ∧
      0 ≤ (analyzeSyntheticText ⟨"", "abc", "", "", "", "x"⟩ (some (1/2))).score ∧
      (analyzeSyntheticText ⟨"", "abc", "", "", "", "x"⟩ (some (1/2))).score ≤ 100) :=
  ⟨⟨by decide, claim_C2_amended.2.2.2.2.1 ⟨"", "abc", "", "", "", "x"⟩ none (by decide)⟩,
   claim_C2_amended.1 ⟨"", "abc", "", "", "", "x"⟩ ⟨0, 0, 0, 0, false, []⟩,
   by norm_num,
   by norm_num,
   (claim_C2_amended.2.2.2.2.2.2 ⟨"", "abc", "", "", "", "x"⟩ (1/2) (by norm_num)
     (by norm_num)).1,
   (claim_C2_amended.2.2.2.2.2.2 ⟨"", "abc", "", "", "", "x"⟩ (1/2) (by norm_num)
     (by norm_num)).2⟩

/-- C2 counterexample: a three-sentence body with no heuristic signals and
no model gives a synthetic-text score of 0, violating `5 ≤ score`. -/
theorem claim_C2_counterexample :
    ¬(5 ≤ (analyzeSyntheticText
        ⟨"", "abcdef. ghijkl. mnopqr.", "", "", "", "manual-paste"⟩ none).score) := by
  rw [syntheticText_example_score]
  decide
/-- C3 (amended): a body under 15 words makes the Linguistic analyzer
return exactly its canned result regardless of other fields and model
response; the Synthetic-Text analyzer returns its canned result exactly
under its own guard — fewer than 3 sentences of trimmed length over 5 —
which a sub-15-word body need not satisfy. -/
theorem claim_C3_amended :
    (∀ (c : Content) (s : Option SentimentOut), jsWordCount c.body < 15 →
      analyzeLinguistic c s =
        { level := Level.low, score := 15,
          explanation := "Text is too short for meaningful linguistic risk analysis.",
          modelUsed := none, details := none }) ∧
    (∀ (c : Content) (p : Option ℚ), (jsSentencesL c.body.toList 5).length < 3 →
      analyzeSyntheticText c p =
        { level := Level.low, score := 10,
          explanation := "Text is too short for meaningful synthetic pattern analysis.",
          modelUsed := false, syntheticProbability := none }) := by
  constructor
  · intro c s h
    have h15 : (jsSplitWsL c.body.toList).length < 15 := h
    simp only [analyzeLinguistic, if_pos h15]
  · intro c p h
    simp only [analyzeSyntheticText, if_pos h]

/-- Witness for C3 at a concrete 2-word content with model answers
present. -/
theorem claim_C3_witness :
    (jsWordCount "short text" < 15 ∧
      analyzeLinguistic ⟨"Title", "short text", "m", "Author", "2024-01-01", "example.com"⟩
          (some ⟨"negative", 1, [("negative", 1)]⟩) =
        { level := Level.low, score := 15,
          explanation := "Text is too short for meaningful linguistic risk analysis.",
          modelUsed := none, details := none }) ∧
    ((jsSentencesL ("short text").toList 5).length < 3 ∧
      analyzeSyntheticText ⟨"Title", "short text", "m", "Author", "2024-01-01", "example.com"⟩
          (some 1) =
        { level := Level.low, score := 10,
          explanation := "Text is too short for meaningful synthetic pattern analysis.",
          modelUsed := false, syntheticProbability := none }) :=
  ⟨⟨by decide,
    claim_C3_amended.1 ⟨"Title", "short text", "m", "Author", "2024-01-01", "example.com"⟩
      (some ⟨"negative", 1, [("negative", 1)]⟩) (by decide)⟩,
   ⟨by decide,
    claim_C3_amended.2 ⟨"Title", "short text", "m", "Author", "2024-01-01", "example.com"⟩
      (some 1) (by decide)⟩⟩

/-- C3 counterexample: a 3-word body with three qualifying sentences is
under the 15-word bound yet the Synthetic-Text analyzer does not return its
canned result (it computes score 0, not 10). -/
theorem claim_C3_counterexample :
    jsWordCount "abcdef. ghijkl. mnopqr." < 15 ∧
    analyzeSyntheticText ⟨"", "abcdef. ghijkl. mnopqr.", "", "", "", "manual-paste"⟩ none ≠
      { level := Level.low, score := 10,
        explanation := "Text is too short for meaningful synthetic pattern analysis.",
        modelUsed := false, syntheticProbability := none } := by
  refine ⟨by decide, ?_⟩
  intro h
  have hs := congrArg SyntheticResult.score h
  rw [syntheticText_example_score] at hs
  exact absurd hs (by decide)

/-- C9: every analyzer is a pure function of its Content and its external
model/corroboration answer — two runs on equal inputs give identical
results — and the heuristic computations depend on the body text alone. -/
theorem claim_C9_determinism :
    (∀ (c₁ c₂ : Content) (p₁ p₂ : Option ℚ), c₁ = c₂ → p₁ = p₂ →
      analyzeSyntheticText c₁ p₁ = analyzeSyntheticText c₂ p₂) ∧
    (∀ (c₁ c₂ : Content) (m₁ m₂ : SourcingMeasures), c₁ = c₂ → m₁ = m₂ →
      analyzeSourcing c₁ m₁ = analyzeSourcing c₂ m₂) ∧
    (∀ (c₁ c₂ : Content) (s₁ s₂ : Option SentimentOut), c₁ = c₂ → s₁ = s₂ →
      analyzeLinguistic c₁ s₁ = analyzeLinguistic c₂ s₂) ∧
    (∀ (c₁ c₂ : Content) (t₁ t₂ : TemporalTextSignals)
        (k₁ k₂ : Option CorroborationResult), c₁ = c₂ → t₁ = t₂ → k₁ = k₂ →
      analyzeTemporal c₁ t₁ k₁ = analyzeTemporal c₂ t₂ k₂) ∧
    (∀ (c₁ c₂ : Content) (n₁ n₂ : ℕ), c₁ = c₂ → n₁ = n₂ →
      analyzeStructural c₁ n₁ = analyzeStructural c₂ n₂) ∧
    (∀ (c₁ c₂ : Content), c₁ = c₂ →
      heuristicSignals c₁.body.toList = heuristicSignals c₂.body.toList ∧
      heuristicSyntheticScore c₁.body.toList = heuristicSyntheticScore c₂.body.toList) := by
  refine ⟨?_, ?_, ?_, ?_, ?_, ?_⟩ <;> intros <;> subst_vars <;> first | exact rfl | exact ⟨rfl, rfl⟩

/-- Witness for C9 at a concrete content. -/
theorem claim_C9_witness :
    ((⟨"t", "body text here", "", "", "", "x"⟩ : Content)
      = (⟨"t", "body text here", "", "", "", "x"⟩ : Content)) ∧
    analyzeStructural ⟨"t", "body text here", "", "", "", "x"⟩ 0
      = analyzeStructural ⟨"t", "body text here", "", "", "", "x"⟩ 0 :=
  ⟨rfl, claim_C9_determinism.2.2.2.2.1 _ _ 0 0 rfl rfl⟩

end SignalCheck
